import Mathlib

/-!
Shallow embedding of the core of `src/backend/server.py` (Food Calorie
Tracker API): portion scaling, daily aggregation, energy-budget
calculation, streak and badge evaluation, log listing and deletion.

Numbers are modelled as exact rationals (`ℚ`); Python's `round`, which
rounds half to even, is modelled by `roundHalfEven`.  Timestamps are
modelled as natural-number seconds since an epoch; a civil day is a
block of 86400 seconds, so the civil day of a timestamp is
`logged_at / 86400`, matching the code's `datetime.combine(day, min.time())`
range queries at second resolution.
-/

/-- Python's `round` to an integer: round half to even (banker's rounding). -/
def roundHalfEven (x : ℚ) : ℤ :=
  let f : ℤ := ⌊x⌋
  let frac : ℚ := x - f
  if frac < 1/2 then f
  else if frac > 1/2 then f + 1
  else if f % 2 = 0 then f else f + 1

/-- Python's `round(x, 1)`: round to one decimal place, half to even. -/
def round1 (x : ℚ) : ℚ := (roundHalfEven (10 * x) : ℚ) / 10

/-- Python's `str.lower()` restricted to the ASCII identifiers this code
compares against (`gender`, `activity_level` keys). -/
def pyLower (s : String) : String := String.mk (s.data.map Char.toLower)

/-- `calculate_bmr` (server.py:155-160): Mifflin-St Jeor equation, with the
code's two-way branch on `gender.lower() == 'male'`. -/
def calculate_bmr (weight height age : ℚ) (gender : String) : ℚ :=
  if pyLower gender = "male" then
    10 * weight + (25/4) * height - 5 * age + 5
  else
    10 * weight + (25/4) * height - 5 * age - 161

/-- `get_activity_multiplier` (server.py:162-171): dictionary lookup on
`activity_level.lower()` with default 1.2 for unknown keys. -/
def get_activity_multiplier (activity_level : String) : ℚ :=
  if pyLower activity_level = "sedentary" then 12/10
  else if pyLower activity_level = "lightly_active" then 1375/1000
  else if pyLower activity_level = "moderately_active" then 155/100
  else if pyLower activity_level = "very_active" then 1725/1000
  else if pyLower activity_level = "extra_active" then 19/10
  else 12/10

/-- The weight actually used by `analyze_food` (server.py:408):
`weight_grams = request.weight_grams or 100`.  `request.weight_grams` is
`Optional[float] = 100`, so an absent field is already `100`; an explicit
JSON `null` is `None`.  Python's `or` substitutes `100` exactly when the
value is falsy, i.e. `None` or `0`; any other value — including a negative
one — is kept. -/
def effective_weight (weight_grams : Option ℚ) : ℚ :=
  match weight_grams with
  | none => 100
  | some v => if v = 0 then 100 else v

/-- The scaled-nutrition record built by `analyze_food` (server.py:407-422),
restricted to its numeric fields. -/
structure ScaledNutrition where
  weight_grams : ℚ
  calories_per_100g : ℚ
  total_calories : ℚ
  protein : ℚ
  carbs : ℚ
  fat : ℚ
deriving DecidableEq

/-- The portion-scaling step of `analyze_food` (server.py:407-422): given the
per-100g figures extracted from the provider payload and the requested
weight, apply `scale_factor = weight_grams / 100` and round each macro to
one decimal. -/
def analyze_food (calories_per_100g protein_per_100g carbs_per_100g fat_per_100g : ℚ)
    (weight_grams : Option ℚ) : ScaledNutrition :=
  let wg := effective_weight weight_grams
  let scale_factor := wg / 100
  { weight_grams := wg
    calories_per_100g := calories_per_100g
    total_calories := round1 (calories_per_100g * scale_factor)
    protein := round1 (protein_per_100g * scale_factor)
    carbs := round1 (carbs_per_100g * scale_factor)
    fat := round1 (fat_per_100g * scale_factor) }

/-- The `calories_per_100g` field computed by `log_food` (server.py:549):
`(total_calories / weight_grams) * 100`. -/
def log_food_calories_per_100g (total_calories weight_grams : ℚ) : ℚ :=
  (total_calories / weight_grams) * 100

/-- A stored food-log document (the fields of the `food_logs` collection
that the claims touch).  `logged_at` is in whole seconds. -/
structure FoodLogEntry where
  log_id : String
  user_id : String
  total_calories : ℚ
  protein : ℚ
  carbs : ℚ
  fat : ℚ
  weight_grams : ℚ
  logged_at : ℕ
deriving DecidableEq

/-- Whether `food_logs` holds an entry for `uid` whose `logged_at` falls in
civil day `d`, i.e. in `[d*86400, (d+1)*86400)` — the window the code
queries with `$gte: combine(day, min.time()), $lt: combine(day+1, min.time())`
(server.py:216-234). -/
def hasLogOnDay (logs : List FoodLogEntry) (uid : String) (d : ℕ) : Bool :=
  logs.any (fun e =>
    decide (e.user_id = uid ∧ d * 86400 ≤ e.logged_at ∧ e.logged_at < (d + 1) * 86400))

/-- `update_user_streak` (server.py:206-247), as a function of the stored
logs (including the entry `log_food` has just inserted), the current civil
day, and the user's current `streak_count`.  Returns the new
`streak_count`: unchanged when no log exists today, incremented when a log
exists yesterday, else reset to 1.  `today - 1` is the code's
`today - timedelta(days=1)`. -/
def update_user_streak (logs : List FoodLogEntry) (uid : String) (today : ℕ)
    (streak_count : ℕ) : ℕ :=
  if ¬ hasLogOnDay logs uid today then streak_count
  else if hasLogOnDay logs uid (today - 1) then streak_count + 1
  else 1

/-- The spec's reference streak transition (spec.md §4.5), stated over the
logs as they were BEFORE the current log-food call inserted its entry: a
log earlier today makes the call a no-op for the streak; else a log
yesterday increments; else the streak resets to 1. -/
def spec_streak_transition (logsBefore : List FoodLogEntry) (uid : String) (today : ℕ)
    (streak_count : ℕ) : ℕ :=
  if hasLogOnDay logsBefore uid today then streak_count
  else if hasLogOnDay logsBefore uid (today - 1) then streak_count + 1
  else 1

/-- MongoDB's `$addToSet` with `$each` (server.py:275-278): append each
element not already present, in order, never duplicating. -/
def addToSetEach (current : List String) (xs : List String) : List String :=
  xs.foldl (fun acc b => if b ∈ acc then acc else acc ++ [b]) current

/-- `check_and_award_badges` (server.py:249-281) as a function of the user's
`total_foods_logged`, `streak_count` and current badge list.  Returns the
list of newly earned badges (the function's return value) and the user's
badge list after the `$addToSet` update. -/
def check_and_award_badges (total_foods_logged streak_count : ℕ)
    (current_badges : List String) : List String × List String :=
  let nb0 : List String := []
  let nb1 := if 1 ≤ total_foods_logged ∧ "first_log" ∉ current_badges
             then nb0 ++ ["first_log"] else nb0
  let nb2 := if 7 ≤ streak_count ∧ "week_warrior" ∉ current_badges
             then nb1 ++ ["week_warrior"] else nb1
  let nb3 := if 30 ≤ streak_count ∧ "month_master" ∉ current_badges
             then nb2 ++ ["month_master"] else nb2
  let nb4 := if 100 ≤ total_foods_logged ∧ "century_tracker" ∉ current_badges
             then nb3 ++ ["century_tracker"] else nb3
  (nb4, addToSetEach current_badges nb4)

/-- The daily-goal computation of `register_user` (server.py:301-311, 326):
BMR → TDEE, then `if user_data.goal_weight:` adds
`(goal_weight - weight) * 7700 / (12 * 7)`.  Python's truthiness test makes
both `None` and `0` skip the adjustment.  The stored value is
`round(daily_goal)` (half to even). -/
def register_daily_calorie_goal (weight height age : ℚ) (gender activity_level : String)
    (goal_weight : Option ℚ) : ℤ :=
  let bmr := calculate_bmr weight height age gender
  let tdee := bmr * get_activity_multiplier activity_level
  let daily_goal :=
    match goal_weight with
    | none => tdee
    | some gw => if gw = 0 then tdee else tdee + (gw - weight) * 7700 / (12 * 7)
  roundHalfEven daily_goal

/-- The `daily_totals` object computed by `get_food_logs` (server.py:600-620):
per-field sum over the listed entries, each total rounded to one decimal. -/
structure DailyTotals where
  calories : ℚ
  protein : ℚ
  carbs : ℚ
  fat : ℚ
deriving DecidableEq

/-- The aggregation loop of `get_food_logs` (server.py:600-620). -/
def daily_totals (logs : List FoodLogEntry) : DailyTotals :=
  { calories := round1 ((logs.map (fun e => e.total_calories)).sum)
    protein := round1 ((logs.map (fun e => e.protein)).sum)
    carbs := round1 ((logs.map (fun e => e.carbs)).sum)
    fat := round1 ((logs.map (fun e => e.fat)).sum) }

/-- The query filter of `get_food_logs` (server.py:586-595): match on
`user_id`, and when a date filter is given, require
`start_date <= logged_at <= start_date + 23:59:59` — with whole-second
timestamps, exactly the entries of civil day `d`. -/
def matchesQuery (uid : String) (date_filter : Option ℕ) (e : FoodLogEntry) : Bool :=
  decide (e.user_id = uid) &&
    match date_filter with
    | none => true
    | some d => decide (d * 86400 ≤ e.logged_at ∧ e.logged_at ≤ d * 86400 + 86399)

/-- Insertion into a list already sorted by `logged_at` descending. -/
def insertByLoggedAtDesc (e : FoodLogEntry) : List FoodLogEntry → List FoodLogEntry
  | [] => [e]
  | x :: xs => if e.logged_at ≤ x.logged_at then x :: insertByLoggedAtDesc e xs
               else e :: x :: xs

/-- Mongo's `sort("logged_at", -1)`: most recent first. -/
def sortByLoggedAtDesc (l : List FoodLogEntry) : List FoodLogEntry :=
  l.foldr insertByLoggedAtDesc []

/-- `get_food_logs` (server.py:582-624): filter by user (and optional day),
sort most-recent-first, materialize the cursor with `to_list(length=100)`
— at most 100 documents — and aggregate the daily totals over exactly the
returned entries. -/
def get_food_logs (store : List FoodLogEntry) (uid : String) (date_filter : Option ℕ) :
    List FoodLogEntry × DailyTotals :=
  let logs := (sortByLoggedAtDesc (store.filter (matchesQuery uid date_filter))).take 100
  (logs, daily_totals logs)

/-- Mongo's `delete_one({"log_id": log_id})`: remove the first matching
document, if any. -/
def deleteFirstById (log_id : String) : List FoodLogEntry → List FoodLogEntry
  | [] => []
  | e :: es => if e.log_id = log_id then es else e :: deleteFirstById log_id es

/-- Outcome of the `delete_food_log` endpoint as seen by its caller. -/
inductive DeleteOutcome where
  | success
  | httpError (status : ℕ)
deriving DecidableEq

/-- `delete_food_log` (server.py:626-635).  When `deleted_count == 0` the
handler raises `HTTPException(404)` — but that raise sits inside the `try`
block, and `except Exception` catches `HTTPException` (a subclass of
`Exception`) and re-raises it as `HTTPException(500, "Failed to delete
food log: ...")`.  So an unknown `log_id` surfaces as a generic 500, not
as the 404 the code intended. -/
def delete_food_log (store : List FoodLogEntry) (log_id : String) :
    DeleteOutcome × List FoodLogEntry :=
  let store' := deleteFirstById log_id store
  let deleted_count := store.length - store'.length
  if deleted_count = 0 then (DeleteOutcome.httpError 500, store)
  else (DeleteOutcome.success, store')

/-- A concrete store of 101 distinct entries for one user, used to exercise
the 100-entry truncation of `get_food_logs`. -/
def sampleStore : List FoodLogEntry :=
  (List.range 101).map (fun i => ⟨"x", "u", 0, 0, 0, 0, 100, i⟩)

/-! ## Helper lemmas -/

theorem roundHalfEven_intCast (k : ℤ) : roundHalfEven (k : ℚ) = k := by
  simp [roundHalfEven]

theorem abs_roundHalfEven_sub_le (x : ℚ) : |(roundHalfEven x : ℚ) - x| ≤ 1/2 := by
  have h1 : ((⌊x⌋ : ℤ) : ℚ) ≤ x := Int.floor_le x
  have h2 : x < (⌊x⌋ : ℚ) + 1 := Int.lt_floor_add_one x
  unfold roundHalfEven
  dsimp only
  split_ifs with hlt hgt hev <;> (rw [abs_le]; push_cast; constructor <;> linarith)

theorem abs_round1_sub_le (x : ℚ) : |round1 x - x| ≤ 1/20 := by
  have h := abs_roundHalfEven_sub_le (10 * x)
  have hr : round1 x - x = ((roundHalfEven (10*x) : ℚ) - 10 * x) / 10 := by
    unfold round1; ring
  rw [hr, abs_div]
  rw [show |(10:ℚ)| = 10 by norm_num]
  linarith

theorem round1_tenth (k : ℤ) : round1 ((k : ℚ) / 10) = (k : ℚ) / 10 := by
  have h : (10 : ℚ) * ((k : ℚ) / 10) = (k : ℚ) := by ring
  unfold round1
  rw [h, roundHalfEven_intCast]

theorem pyLower_male : pyLower "male" = "male" := by decide

theorem pyLower_MALE : pyLower "MALE" = "male" := by decide

theorem pyLower_female : pyLower "female" = "female" := by decide

theorem pyLower_sedentary : pyLower "sedentary" = "sedentary" := by decide

theorem pyLower_mod_active : pyLower "moderately_active" = "moderately_active" := by decide

/-! ## Claim C8 -/

/-- Claim C8, counterexample: the claim asserts BMR = 1825 for weight 75 kg,
height 180 cm, age 30, gender male; the code computes
750 + 1125 − 150 + 5 = 1730, not 1825. -/
theorem calculate_bmr_example_ne_1825 : calculate_bmr 75 180 30 "male" ≠ 1825 := by
  rw [calculate_bmr, pyLower_male, if_pos rfl]
  norm_num

/-- Claim C8 (amended): the BMR computation equals the two-branch
Mifflin-St Jeor reference — for gender "male" (case-insensitive)
BMR = 10w + 6.25h − 5a + 5 and otherwise BMR = 10w + 6.25h − 5a − 161 —
and for weight 75, height 180, age 30, gender male, activity
moderately_active, BMR = 1730 and TDEE = 1730 × 1.55 = 2681.5. -/
theorem calculate_bmr_formula_and_example :
    (∀ w h a : ℚ, ∀ g : String, pyLower g = "male" →
        calculate_bmr w h a g = 10*w + (25/4)*h - 5*a + 5) ∧
    (∀ w h a : ℚ, ∀ g : String, pyLower g ≠ "male" →
        calculate_bmr w h a g = 10*w + (25/4)*h - 5*a - 161) ∧
    calculate_bmr 75 180 30 "male" = 1730 ∧
    calculate_bmr 75 180 30 "male" * get_activity_multiplier "moderately_active"
      = 5363/2 := by
  refine ⟨fun w h a g hg => by rw [calculate_bmr, if_pos hg],
          fun w h a g hg => by rw [calculate_bmr, if_neg hg], ?_, ?_⟩
  · rw [calculate_bmr, pyLower_male, if_pos rfl]; norm_num
  · rw [calculate_bmr, pyLower_male, if_pos rfl]
    rw [get_activity_multiplier, pyLower_mod_active,
        if_neg (by decide), if_neg (by decide), if_pos rfl]
    norm_num

/-- Witness for `calculate_bmr_formula_and_example` at concrete genders
"MALE" and "female". -/
theorem calculate_bmr_formula_and_example_witness :
    calculate_bmr 75 180 30 "MALE" = 10*75 + (25/4)*180 - 5*30 + 5 ∧
    calculate_bmr 75 180 30 "female" = 10*75 + (25/4)*180 - 5*30 - 161 :=
  ⟨calculate_bmr_formula_and_example.1 75 180 30 "MALE" pyLower_MALE,
   calculate_bmr_formula_and_example.2.1 75 180 30 "female"
     (by rw [pyLower_female]; decide)⟩

/-! ## Claim C3 -/

/-- Claim C3, counterexample: a negative requested weight is not replaced
by 100 — Python's `or` only treats `None` and `0` as falsy — so the scale
factor applied for `weight_grams = -50` is negative, not positive. -/
theorem effective_weight_negative_passes_through :
    effective_weight (some (-50)) = -50 ∧ ¬ (0 < effective_weight (some (-50)) / 100) := by
  constructor <;> norm_num [effective_weight]

/-- Claim C3 (amended): the scaler substitutes 100 grams exactly when
`weight_grams` is absent (`None`) or equal to 0; a supplied nonzero value —
including a negative one — is used as-is, so the applied scale factor is
strictly positive whenever the supplied weight is nonnegative (and only
then). -/
theorem effective_weight_default_cases :
    effective_weight none = 100 ∧
    effective_weight (some 0) = 100 ∧
    (∀ v : ℚ, v ≠ 0 → effective_weight (some v) = v) ∧
    (∀ v : ℚ, 0 ≤ v → 0 < effective_weight (some v) / 100) := by
  refine ⟨rfl, by norm_num [effective_weight], fun v hv => by simp [effective_weight, hv], ?_⟩
  intro v hv
  rcases eq_or_ne v 0 with h0 | h0
  · subst h0; norm_num [effective_weight]
  · rw [show effective_weight (some v) = v from by simp [effective_weight, h0]]
    have : 0 < v := lt_of_le_of_ne hv (Ne.symm h0)
    positivity

/-- Witness for `effective_weight_default_cases` at concrete weights
-7 (kept as-is) and 50 (positive scale factor). -/
theorem effective_weight_default_cases_witness :
    effective_weight (some (-7)) = -7 ∧ 0 < effective_weight (some 50) / 100 :=
  ⟨effective_weight_default_cases.2.2.1 (-7) (by norm_num),
   effective_weight_default_cases.2.2.2 50 (by norm_num)⟩

/-! ## Claim C9 -/

/-- Claim C9, counterexample: a supplied `goal_weight` of 0 kg is falsy in
Python, so `register_user` skips the calorie adjustment: the stored goal is
`round(TDEE)` = 2076, not `round(TDEE + (0 − 75)·7700/84)` = −4799 as the
claim's formula demands for every supplied goal weight. -/
theorem register_goal_zero_goal_weight_ignored :
    register_daily_calorie_goal 75 180 30 "male" "sedentary" (some 0)
      ≠ roundHalfEven
          (calculate_bmr 75 180 30 "male" * get_activity_multiplier "sedentary"
            + ((0:ℚ) - 75) * 7700 / (12 * 7)) := by
  have hb : calculate_bmr 75 180 30 "male" = 1730 := by
    rw [calculate_bmr, pyLower_male, if_pos rfl]; norm_num
  have ha : get_activity_multiplier "sedentary" = 12/10 := by
    rw [get_activity_multiplier, pyLower_sedentary, if_pos rfl]
  have h1 : register_daily_calorie_goal 75 180 30 "male" "sedentary" (some 0) = 2076 := by
    simp only [register_daily_calorie_goal, hb, ha]
    norm_num [roundHalfEven]
  have h2 : roundHalfEven
      (calculate_bmr 75 180 30 "male" * get_activity_multiplier "sedentary"
        + ((0:ℚ) - 75) * 7700 / (12 * 7)) = -4799 := by
    rw [hb, ha]
    norm_num [roundHalfEven]
  rw [h1, h2]
  decide

/-- Claim C9 (amended): the stored daily calorie goal is
`round(TDEE + (goal_weight − weight)·7700/84)` (half to even) when a
NONZERO goal weight is supplied, and `round(TDEE)` when the goal weight is
absent, null, or zero (Python truthiness). -/
theorem register_daily_calorie_goal_cases :
    ∀ (w h a : ℚ) (g act : String),
      register_daily_calorie_goal w h a g act none
        = roundHalfEven (calculate_bmr w h a g * get_activity_multiplier act) ∧
      register_daily_calorie_goal w h a g act (some 0)
        = roundHalfEven (calculate_bmr w h a g * get_activity_multiplier act) ∧
      (∀ gw : ℚ, gw ≠ 0 →
        register_daily_calorie_goal w h a g act (some gw)
          = roundHalfEven (calculate_bmr w h a g * get_activity_multiplier act
              + (gw - w) * 7700 / (12 * 7))) := by
  intro w h a g act
  exact ⟨rfl, by simp [register_daily_calorie_goal],
         fun gw hgw => by simp [register_daily_calorie_goal, hgw]⟩

/-- Witness for `register_daily_calorie_goal_cases` at the concrete nonzero
goal weight 70 kg. -/
theorem register_daily_calorie_goal_cases_witness :
    register_daily_calorie_goal 75 180 30 "male" "sedentary" (some 70)
      = roundHalfEven
          (calculate_bmr 75 180 30 "male" * get_activity_multiplier "sedentary"
            + ((70:ℚ) - 75) * 7700 / (12 * 7)) :=
  (register_daily_calorie_goal_cases 75 180 30 "male" "sedentary").2.2 70 (by norm_num)

/-! ## Claim C2 -/

/-- Claim C2: every scaled output macro of `analyze_food` equals
`round(per_100g_value × weight_grams / 100, 1 decimal)` for the weight the
record carries, and scaling by `weight_grams = 100` is the identity on
per-100g values that carry at most one decimal place (`k/10`). -/
theorem analyze_food_scaling_formula :
    (∀ c p cb f : ℚ, ∀ w : Option ℚ,
      (analyze_food c p cb f w).total_calories
        = round1 (c * ((analyze_food c p cb f w).weight_grams / 100)) ∧
      (analyze_food c p cb f w).protein
        = round1 (p * ((analyze_food c p cb f w).weight_grams / 100)) ∧
      (analyze_food c p cb f w).carbs
        = round1 (cb * ((analyze_food c p cb f w).weight_grams / 100)) ∧
      (analyze_food c p cb f w).fat
        = round1 (f * ((analyze_food c p cb f w).weight_grams / 100))) ∧
    (∀ kc kp kb kf : ℤ,
      analyze_food ((kc:ℚ)/10) ((kp:ℚ)/10) ((kb:ℚ)/10) ((kf:ℚ)/10) (some 100)
        = { weight_grams := 100, calories_per_100g := (kc:ℚ)/10,
            total_calories := (kc:ℚ)/10, protein := (kp:ℚ)/10,
            carbs := (kb:ℚ)/10, fat := (kf:ℚ)/10 }) := by
  constructor
  · intro c p cb f w
    exact ⟨rfl, rfl, rfl, rfl⟩
  · intro kc kp kb kf
    have hw : effective_weight (some 100) = (100:ℚ) := by norm_num [effective_weight]
    simp only [analyze_food, hw, ScaledNutrition.mk.injEq]
    rw [show ((100:ℚ)/100) = 1 by norm_num]
    simp [round1_tenth]

/-! ## Claim C1 -/

/-- Claim C1, counterexample: a user with an entry yesterday (t=1000,
day 0) and an entry earlier today (t=87000, day 1) logs again today
(t=90000).  The spec transition leaves `streak_count = 2` (no-op within a
day); the code, which queries the store AFTER the insert and never checks
for an earlier same-day entry, increments it to 3. -/
theorem update_user_streak_not_idempotent_within_day :
    update_user_streak
      [⟨"n", "u", 1, 1, 1, 1, 100, 90000⟩,
       ⟨"b", "u", 1, 1, 1, 1, 100, 87000⟩,
       ⟨"a", "u", 1, 1, 1, 1, 100, 1000⟩]
      "u" 1 2
      ≠ spec_streak_transition
          [⟨"b", "u", 1, 1, 1, 1, 100, 87000⟩, ⟨"a", "u", 1, 1, 1, 1, 100, 1000⟩]
          "u" 1 2 := by
  decide

/-- Claim C1 (amended): on each successful log-food call the streak update,
running over the store that already contains the just-inserted entry,
increments `streak_count` by 1 whenever any entry exists for yesterday —
even if the user had already logged earlier today — and otherwise resets it
to 1.  There is no within-day idempotence check. -/
theorem update_user_streak_after_insert :
    ∀ (logsBefore : List FoodLogEntry) (uid : String) (today streak : ℕ)
      (e : FoodLogEntry),
      e.user_id = uid →
      today * 86400 ≤ e.logged_at →
      e.logged_at < (today + 1) * 86400 →
      1 ≤ today →
      update_user_streak (e :: logsBefore) uid today streak
        = if hasLogOnDay logsBefore uid (today - 1) then streak + 1 else 1 := by
  intro logs uid today streak e hu h1 h2 ht
  have htoday : hasLogOnDay (e :: logs) uid today = true := by
    simp only [hasLogOnDay, List.any_cons, Bool.or_eq_true, decide_eq_true_eq]
    exact Or.inl ⟨hu, h1, h2⟩
  have hnot : ¬ (e.user_id = uid ∧ (today - 1) * 86400 ≤ e.logged_at
      ∧ e.logged_at < (today - 1 + 1) * 86400) := by
    rintro ⟨-, -, hlt⟩
    omega
  have hyest : hasLogOnDay (e :: logs) uid (today - 1) = hasLogOnDay logs uid (today - 1) := by
    simp only [hasLogOnDay, List.any_cons, Bool.or_eq_true, decide_eq_true_eq]
    simp [hnot]
  rw [update_user_streak, if_neg (not_not_intro htoday), hyest]

/-- Witness for `update_user_streak_after_insert`: first-ever log on day 1
resets the streak to 1. -/
theorem update_user_streak_after_insert_witness :
    update_user_streak [⟨"n", "u", 1, 1, 1, 1, 100, 90000⟩] "u" 1 5 = 1 :=
  (update_user_streak_after_insert [] "u" 1 5 ⟨"n", "u", 1, 1, 1, 1, 100, 90000⟩
      rfl (by decide) (by decide) (by decide)).trans (by decide)

/-! ## Claim C5 -/

/-- Claim C5: daily aggregation is order-independent — permuting the
sequence of `FoodLogEntry` records over which the totals are computed
yields the same `DailyTotals`. -/
theorem daily_totals_perm_invariant :
    ∀ (l1 l2 : List FoodLogEntry), l1.Perm l2 → daily_totals l1 = daily_totals l2 := by
  intro l1 l2 h
  simp only [daily_totals, DailyTotals.mk.injEq]
  exact ⟨by rw [(h.map _).sum_eq], by rw [(h.map _).sum_eq],
         by rw [(h.map _).sum_eq], by rw [(h.map _).sum_eq]⟩

/-- Witness for `daily_totals_perm_invariant` on a concrete two-entry swap. -/
theorem daily_totals_perm_invariant_witness :
    daily_totals [⟨"a","u",1,2,3,4,100,0⟩, ⟨"b","u",5,6,7,8,50,1⟩]
      = daily_totals [⟨"b","u",5,6,7,8,50,1⟩, ⟨"a","u",1,2,3,4,100,0⟩] :=
  daily_totals_perm_invariant _ _ (List.Perm.swap _ _ _)

/-! ## Claim C6 -/

/-- Claim C6, counterexample: for `calories_per_100g = 4` and
`weight_grams = 1` the scaled calories round to 0.0, and the inverse
computation `calories × 100 / weight_grams` recovers 0, which misses the
canonical 4 by far more than the claimed 0.1 tolerance. -/
theorem roundtrip_fails_at_small_weight :
    |log_food_calories_per_100g
        ((analyze_food 4 0 0 0 (some 1)).total_calories) 1 - 4| > 1/10 := by
  have hw : effective_weight (some 1) = (1:ℚ) := by norm_num [effective_weight]
  simp only [analyze_food, hw, log_food_calories_per_100g]
  norm_num [round1, roundHalfEven]

/-- Claim C6 (amended): for every canonical item and weight `w > 0`,
scaling and then applying the inverse computation
`calories × 100 / weight_grams` reproduces `calories_per_100g` within
`5 / w` — in particular within the claimed 0.1 tolerance whenever
`w ≥ 50` grams, but not in general for smaller weights. -/
theorem roundtrip_within_tolerance :
    ∀ (c w : ℚ), 0 < w →
      |log_food_calories_per_100g ((analyze_food c 0 0 0 (some w)).total_calories) w - c|
          ≤ 5 / w ∧
      (50 ≤ w →
        |log_food_calories_per_100g ((analyze_food c 0 0 0 (some w)).total_calories) w - c|
          ≤ 1/10) := by
  intro c w hw
  have hw0 : w ≠ 0 := ne_of_gt hw
  have hew : effective_weight (some w) = w := by simp [effective_weight, hw0]
  set x : ℚ := c * (w / 100) with hx
  have htc : (analyze_food c 0 0 0 (some w)).total_calories = round1 x := by
    simp only [analyze_food, hew]
  have hkey : log_food_calories_per_100g (round1 x) w - c = (round1 x - x) * (100 / w) := by
    rw [log_food_calories_per_100g, hx]
    field_simp
    ring
  have h1 : |round1 x - x| ≤ 1/20 := abs_round1_sub_le x
  have hmain : |log_food_calories_per_100g (round1 x) w - c| ≤ 5 / w := by
    rw [hkey, abs_mul, abs_of_pos (by positivity : (0:ℚ) < 100 / w)]
    calc |round1 x - x| * (100 / w) ≤ (1/20) * (100 / w) :=
          mul_le_mul_of_nonneg_right h1 (by positivity)
      _ = 5 / w := by field_simp; ring
  refine ⟨by rw [htc]; exact hmain, fun h50 => ?_⟩
  rw [htc]
  refine le_trans hmain ?_
  rw [div_le_div_iff₀ hw (by norm_num)]
  linarith

/-- Witness for `roundtrip_within_tolerance` at `c = 4`, `w = 50`. -/
theorem roundtrip_within_tolerance_witness :
    |log_food_calories_per_100g ((analyze_food 4 0 0 0 (some 50)).total_calories) 50 - 4|
      ≤ 1/10 :=
  (roundtrip_within_tolerance 4 50 (by norm_num)).2 (by norm_num)

/-! ## Claim C4 -/

theorem deleteFirstById_of_no_match (id : String) :
    ∀ (store : List FoodLogEntry), (∀ e ∈ store, e.log_id ≠ id) →
      deleteFirstById id store = store := by
  intro store
  induction store with
  | nil => intro _; rfl
  | cons x xs ih =>
    intro h
    simp only [deleteFirstById]
    rw [if_neg (h x (List.mem_cons_self x xs)), ih (fun e he => h e (List.mem_cons_of_mem x he))]

theorem deleteFirstById_append (pre post : List FoodLogEntry) (e : FoodLogEntry) (id : String)
    (hpre : ∀ x ∈ pre, x.log_id ≠ id) (he : e.log_id = id) :
    deleteFirstById id (pre ++ e :: post) = pre ++ post := by
  induction pre with
  | nil => simp [deleteFirstById, he]
  | cons x xs ih =>
    simp only [List.cons_append, deleteFirstById]
    rw [if_neg (hpre x (List.mem_cons_self x xs))]
    exact congrArg (List.cons x) (ih (fun y hy => hpre y (List.mem_cons_of_mem x hy)))

/-- Claim C4: deleting an unknown `log_id` does NOT yield the 404 not-found
outcome the claim (and the repository's own test suite) expects: the
`HTTPException(404)` raised inside the handler's `try` block is caught by
its blanket `except Exception` and re-raised as a generic
`HTTPException(500, "Failed to delete food log: ...")`.  Deleting a known
`log_id` (unique in the store) removes exactly that entry and leaves every
other entry unchanged, as claimed. -/
theorem delete_food_log_behavior :
    (∀ (store : List FoodLogEntry) (id : String),
        (∀ e ∈ store, e.log_id ≠ id) →
        delete_food_log store id = (DeleteOutcome.httpError 500, store)) ∧
    (∀ (pre post : List FoodLogEntry) (e : FoodLogEntry) (id : String),
        (∀ x ∈ pre, x.log_id ≠ id) → e.log_id = id →
        delete_food_log (pre ++ e :: post) id = (DeleteOutcome.success, pre ++ post)) := by
  constructor
  · intro store id h
    have hd : deleteFirstById id store = store := deleteFirstById_of_no_match id store h
    simp [delete_food_log, hd]
  · intro pre post e id hpre he
    have hd : deleteFirstById id (pre ++ e :: post) = pre ++ post :=
      deleteFirstById_append pre post e id hpre he
    have hlen : (pre ++ e :: post).length - (pre ++ post).length = 1 := by
      simp only [List.length_append, List.length_cons]
      omega
    simp [delete_food_log, hd, hlen]
    omega

/-- Witness for `delete_food_log_behavior`: the failing input — deleting
log_id "missing" from a store holding only "id1" yields the generic 500 —
and a successful delete of "id1" that removes exactly that entry. -/
theorem delete_food_log_behavior_witness :
    delete_food_log [⟨"id1","u",100,5,10,2,100,0⟩] "missing"
      = (DeleteOutcome.httpError 500, [⟨"id1","u",100,5,10,2,100,0⟩]) ∧
    delete_food_log [⟨"id1","u",100,5,10,2,100,0⟩, ⟨"id2","u",7,1,2,3,50,5⟩] "id1"
      = (DeleteOutcome.success, [⟨"id2","u",7,1,2,3,50,5⟩]) :=
  ⟨delete_food_log_behavior.1 _ "missing" (by decide),
   delete_food_log_behavior.2 [] [⟨"id2","u",7,1,2,3,50,5⟩]
     ⟨"id1","u",100,5,10,2,100,0⟩ "id1" (by decide) rfl⟩

/-! ## Claim C7 -/

theorem mem_addToSetEach_of_mem_cur (b : String) :
    ∀ (xs cur : List String), b ∈ cur → b ∈ addToSetEach cur xs := by
  intro xs
  induction xs with
  | nil => intro cur hb; exact hb
  | cons x xs ih =>
    intro cur hb
    show b ∈ addToSetEach (if x ∈ cur then cur else cur ++ [x]) xs
    by_cases hx : x ∈ cur
    · rw [if_pos hx]; exact ih cur hb
    · rw [if_neg hx]; exact ih _ (List.mem_append_left _ hb)

theorem mem_addToSetEach_of_mem_xs (b : String) :
    ∀ (xs cur : List String), b ∈ xs → b ∈ addToSetEach cur xs := by
  intro xs
  induction xs with
  | nil => intro cur hb; cases hb
  | cons x xs ih =>
    intro cur hb
    show b ∈ addToSetEach (if x ∈ cur then cur else cur ++ [x]) xs
    rcases List.mem_cons.mp hb with rfl | hb'
    · by_cases hx : b ∈ cur
      · rw [if_pos hx]; exact mem_addToSetEach_of_mem_cur b xs cur hx
      · rw [if_neg hx]
        exact mem_addToSetEach_of_mem_cur b xs _ (List.mem_append_right _ (by simp))
    · by_cases hx : x ∈ cur
      · rw [if_pos hx]; exact ih cur hb'
      · rw [if_neg hx]; exact ih _ hb'

theorem count_addToSetEach_of_mem (b : String) :
    ∀ (xs cur : List String), b ∈ cur →
      (addToSetEach cur xs).count b = cur.count b := by
  intro xs
  induction xs with
  | nil => intro cur _; rfl
  | cons x xs ih =>
    intro cur hb
    show (addToSetEach (if x ∈ cur then cur else cur ++ [x]) xs).count b = cur.count b
    by_cases hx : x ∈ cur
    · rw [if_pos hx]; exact ih cur hb
    · rw [if_neg hx]
      have hbx : b ≠ x := fun h => hx (h ▸ hb)
      rw [ih (cur ++ [x]) (List.mem_append_left _ hb)]
      simp [List.count_append, hbx]

theorem check_new_badges_not_in_current :
    ∀ (total streak : ℕ) (current : List String) (b : String),
      b ∈ (check_and_award_badges total streak current).1 → b ∉ current := by
  intro total streak current b
  dsimp only [check_and_award_badges]
  split_ifs with h1 h2 h3 h4 <;>
    (intro hmem hbc; simp only [List.mem_cons, List.mem_singleton, List.not_mem_nil,
       List.mem_append, or_false, false_or, List.nil_append] at hmem) <;>
    aesop

theorem check_new_badges_nodup :
    ∀ (total streak : ℕ) (current : List String),
      ((check_and_award_badges total streak current).1).Nodup := by
  intro total streak current
  dsimp only [check_and_award_badges]
  split_ifs <;> decide

/-- Claim C7: badge emission is idempotent — the newly-earned list of a
single `check_and_award_badges` call never repeats a badge id, never
re-emits a badge already in the user's badge set, `$addToSet` never
duplicates an already-present badge in the set, and every freshly emitted
badge lands in the updated set (so a later call with the updated set can
never re-emit it, by the second conjunct). -/
theorem check_and_award_badges_idempotent :
    ∀ (total streak : ℕ) (current : List String),
      ((check_and_award_badges total streak current).1).Nodup ∧
      (∀ b : String, b ∈ current → b ∉ (check_and_award_badges total streak current).1) ∧
      (∀ b : String, b ∈ current →
        ((check_and_award_badges total streak current).2).count b = current.count b) ∧
      (∀ b : String, b ∈ (check_and_award_badges total streak current).1 →
        b ∈ (check_and_award_badges total streak current).2) := by
  intro total streak current
  refine ⟨check_new_badges_nodup total streak current,
          fun b hb hmem => check_new_badges_not_in_current total streak current b hmem hb,
          fun b hb => count_addToSetEach_of_mem b _ current hb,
          fun b hb => mem_addToSetEach_of_mem_xs b _ current hb⟩

/-- Witness for `check_and_award_badges_idempotent`: a user holding
"first_log" who crosses the first-log threshold again (and newly reaches a
7-day streak) does not re-emit or duplicate "first_log", and the new
"week_warrior" badge lands in the set. -/
theorem check_and_award_badges_idempotent_witness :
    "first_log" ∉ (check_and_award_badges 5 7 ["first_log"]).1 ∧
    ((check_and_award_badges 5 7 ["first_log"]).2).count "first_log"
      = (["first_log"] : List String).count "first_log" ∧
    "week_warrior" ∈ (check_and_award_badges 5 7 ["first_log"]).2 :=
  ⟨(check_and_award_badges_idempotent 5 7 ["first_log"]).2.1 "first_log" (by decide),
   (check_and_award_badges_idempotent 5 7 ["first_log"]).2.2.1 "first_log" (by decide),
   (check_and_award_badges_idempotent 5 7 ["first_log"]).2.2.2 "week_warrior" (by decide)⟩

/-! ## Claim C10 -/

theorem length_le_of_nodup_subset (l m : List FoodLogEntry)
    (hn : l.Nodup) (hsub : ∀ e ∈ l, e ∈ m) : l.length ≤ m.length := by
  have h1 : l.toFinset.card = l.length := List.toFinset_card_of_nodup hn
  have h2 : l.toFinset ⊆ m.toFinset := fun a ha =>
    List.mem_toFinset.mpr (hsub a (List.mem_toFinset.mp ha))
  calc l.length = l.toFinset.card := h1.symm
    _ ≤ m.toFinset.card := Finset.card_le_card h2
    _ ≤ m.length := List.toFinset_card_le m

/-- Claim C10: `get_food_logs` returns at most the 100 most-recent matching
entries — the returned list is the 100-prefix of the matching entries
sorted most-recent-first, the reported daily totals are computed over
exactly the returned list, and whenever more than 100 (distinct) entries
match, some matching entry is silently omitted from the result. -/
theorem get_food_logs_truncates_to_100 :
    ∀ (store : List FoodLogEntry) (uid : String) (df : Option ℕ),
      (get_food_logs store uid df).1.length ≤ 100 ∧
      (get_food_logs store uid df).1
        = (sortByLoggedAtDesc (store.filter (matchesQuery uid df))).take 100 ∧
      (get_food_logs store uid df).2 = daily_totals (get_food_logs store uid df).1 ∧
      ((store.filter (matchesQuery uid df)).Nodup →
        100 < (store.filter (matchesQuery uid df)).length →
        ∃ e, e ∈ store.filter (matchesQuery uid df)
          ∧ e ∉ (get_food_logs store uid df).1) := by
  intro store uid df
  refine ⟨List.length_take_le 100 _, rfl, rfl, ?_⟩
  intro hnd hlen
  by_contra hcon
  push_neg at hcon
  have hle := length_le_of_nodup_subset _ _ hnd hcon
  have h100 : (get_food_logs store uid df).1.length ≤ 100 := List.length_take_le 100 _
  omega

/-- Witness for `get_food_logs_truncates_to_100` on a 101-entry store: some
stored matching entry is missing from the returned list. -/
theorem get_food_logs_truncates_to_100_witness :
    ∃ e, e ∈ sampleStore.filter (matchesQuery "u" none)
      ∧ e ∉ (get_food_logs sampleStore "u" none).1 := by
  have hinj : Function.Injective
      (fun i : ℕ => (⟨"x", "u", 0, 0, 0, 0, 100, i⟩ : FoodLogEntry)) :=
    fun a b h => by simpa using congrArg FoodLogEntry.logged_at h
  have hfil : sampleStore.filter (matchesQuery "u" none) = sampleStore := by
    apply List.filter_eq_self.mpr
    intro e he
    rcases List.mem_map.mp he with ⟨i, _, rfl⟩
    simp [matchesQuery]
  have hnd : (sampleStore.filter (matchesQuery "u" none)).Nodup := by
    rw [hfil]
    exact List.Nodup.map hinj (List.nodup_range 101)
  have hlen : 100 < (sampleStore.filter (matchesQuery "u" none)).length := by
    rw [hfil]
    simp [sampleStore]
  exact (get_food_logs_truncates_to_100 sampleStore "u" none).2.2.2 hnd hlen
